import Mathlib

/-!
Shallow embedding of `src/app.py` (FastAPI + SQLAlchemy + Cloudinary car CRUD).

Modelling conventions:
* The `cars` table is a list of `Car` rows holding exactly the mapped columns
  declared on the SQLAlchemy model (`id`, `make`, `model`, `year`,
  `image_filename`); `DB.nextId` models the autoincrementing primary key.
* Each HTTP request runs in a fresh SQLAlchemy session (`get_db`), so a
  handler receives the durable `DB` and loads fresh ORM instances from it.
  A `CarInstance` is such an in-session object: its `row` holds the mapped
  columns and `image_url` models the *non-mapped* Python attribute of the
  same name that the handlers assign (`none` = the attribute was never set
  on this instance; reading it then raises `AttributeError` in Python).
  `db.commit()` persists only mapped columns; `db.refresh` re-reads mapped
  columns and leaves plain instance attributes alone.
* Python falsiness of form values (`if make:` etc.) is `pyTruthyStr`;
  `int(year)` is `pyInt?` (whitespace stripped, optional sign, decimal
  digits; digit-group underscores are not modelled, no claim touches them).
* Cloudinary calls are a parameter `upl : String -> Except String String`
  mapping an uploaded file to either the `secure_url` of the stored image or
  the message of the exception the SDK raised.  An uncaught Python exception
  escaping a handler is modelled as `HErr.pyExc` / `HErr.pyAttrError`
  (FastAPI turns these into HTTP 500); `raise HTTPException(s, d)` is
  `HErr.http s d`.
* Handlers return `DB × Except HErr response`: the first component is the
  durable table after the request (rows committed before an exception stay
  committed; uncommitted in-session mutations are discarded when `get_db`
  closes the session).
-/

namespace CrudCloud

/-- Mapped columns of the `cars` table (source lines 50-56).  Note the only
image-related column is `image_filename`. -/
structure Car where
  id : Nat
  make : String
  model : String
  year : Int
  image_filename : Option String
deriving DecidableEq, Repr

/-- The column names declared on the `Car` model. -/
def carColumns : List String := ["id", "make", "model", "year", "image_filename"]

/-- Durable database state: the `cars` table plus the autoincrement counter. -/
structure DB where
  rows : List Car
  nextId : Nat
deriving DecidableEq, Repr

/-- An ORM instance inside one request's session.  `image_url` is the plain
Python attribute assigned by the handlers; it is not a mapped column, so a
freshly loaded instance has it unset (`none`). -/
structure CarInstance where
  row : Car
  image_url : Option String
deriving DecidableEq, Repr

/-- `db.query(Car).filter(Car.id == car_id).first()`: the loaded instance has
only mapped columns populated; the `image_url` attribute does not exist on it. -/
def loadCar (db : DB) (car_id : Nat) : Option CarInstance :=
  (db.rows.find? (fun r => r.id == car_id)).map (fun r => ⟨r, none⟩)

/-- Pydantic request schema `CarCreate` (source lines 59-65). -/
structure CarCreate where
  make : String
  model : String
  year : Int
deriving DecidableEq, Repr

/-- Pydantic response schema `CarResponse` (source lines 67-72):
`image_url` defaults to `None` when the attribute is absent on the object. -/
structure CarResponse where
  id : Nat
  make : String
  model : String
  year : Int
  image_url : Option String
deriving DecidableEq, Repr

/-- Serialization of an ORM object through `CarResponse` /
FastAPI's encoder: mapped columns plus the `image_url` attribute when set,
`None` otherwise. -/
def serializeCar (inst : CarInstance) : CarResponse :=
  ⟨inst.row.id, inst.row.make, inst.row.model, inst.row.year, inst.image_url⟩

/-- How a handler terminates abnormally. -/
inductive HErr where
  /-- `raise HTTPException(status_code, detail)`. -/
  | http (status : Nat) (detail : String)
  /-- An `AttributeError` from reading a never-assigned instance attribute
  (FastAPI answers HTTP 500). -/
  | pyAttrError (attr : String)
  /-- Any other uncaught Python exception, e.g. from the Cloudinary SDK
  (FastAPI answers HTTP 500). -/
  | pyExc (msg : String)
deriving DecidableEq, Repr

/-- Python truthiness of a `str`: nonempty. -/
def pyTruthyStr (s : String) : Bool := !(s == "")

/-- Python truthiness of an `Optional[str]` form field: `None` and `""` are
falsy. -/
def pyTruthyOptStr : Option String → Bool
  | none => false
  | some s => pyTruthyStr s

/-- Python truthiness of the `files: list[UploadFile] = File(None)` parameter:
`None` and the empty list are falsy. -/
def pyTruthyFiles : Option (List String) → Bool
  | none => false
  | some fs => !fs.isEmpty

/-- Decimal digit run (nonempty, digits only). -/
def parseDigits? (cs : List Char) : Option Nat :=
  if cs.isEmpty then none
  else cs.foldl
    (fun acc c => acc.bind (fun n => if c.isDigit then some (10 * n + (c.toNat - 48)) else none))
    (some 0)

/-- Python `int(s)` on a string: strip surrounding whitespace (as in
`str.strip()`), then an optional sign and decimal digits; `none` models the
`ValueError` raise.  (Underscore digit grouping is not modelled; no claim
touches it.) -/
def pyInt? (s : String) : Option Int :=
  match ((s.data.dropWhile Char.isWhitespace).reverse.dropWhile
      Char.isWhitespace).reverse with
  | '+' :: cs => (parseDigits? cs).map (fun n => (n : Int))
  | '-' :: cs => (parseDigits? cs).map (fun n => -(n : Int))
  | cs => (parseDigits? cs).map (fun n => (n : Int))

/-- `db.commit()` flushing one dirty instance: the row with the instance's
primary key is written back; only mapped columns are persisted. -/
def commitRow (db : DB) (row : Car) : DB :=
  ⟨db.rows.map (fun r => if r.id == row.id then row else r), db.nextId⟩

/-- Python `str.split(sep)` for a single-character separator, on the string's
character list (keeps empty fields, always returns at least one field). -/
def pySplitC (sep : Char) : List Char → List (List Char)
  | [] => [[]]
  | c :: rest =>
    match pySplitC sep rest with
    | [] => [[]]
    | g :: gs => if c = sep then [] :: g :: gs else (c :: g) :: gs

/-- `url.split("/")[-1]`: the final path segment. -/
def lastSegC (url : List Char) : List Char :=
  (pySplitC '/' url).getLastD []

/-- `url.split("/")[-1].split(".")[0]` (source lines 167 and 202): the
"public id" handed to `cloudinary.uploader.destroy`. -/
def public_id (url : String) : String :=
  ⟨(pySplitC '.' (lastSegC url.data)).headD []⟩

/-- The key passed to `cloudinary.uploader.destroy` for a stored image URL:
the destroy call is guarded by `if db_car.image_url:` (truthiness), and its
argument is `public_id` of the URL (source lines 166-168 and 201-203). -/
def destroyKeyFor (url : String) : Option String :=
  if pyTruthyStr url then some (public_id url) else none

/-- `[sep.join g for ...]`-style inverse of `pySplitC`. -/
def joinSep (sep : Char) : List (List Char) → List Char
  | [] => []
  | [g] => g
  | g :: gs => g ++ sep :: joinSep sep gs

/-- One new row as inserted by the bulk-create loop:
`Car(make=car.make, model=car.model, year=car.year)` leaves
`image_filename` NULL (source line 123). -/
def mkRow (id : Nat) (c : CarCreate) : Car :=
  ⟨id, c.make, c.model, c.year, none⟩

/-- The list of rows inserted for consecutive creates starting at `startId`. -/
def mkRows (startId : Nat) : List CarCreate → List Car
  | [] => []
  | c :: rest => mkRow startId c :: mkRows (startId + 1) rest

/-- The `for i, car in enumerate(cars_data)` loop of `create_cars`
(source lines 121-137).  Per item: insert, commit, refresh; then
`if files and files[i]:` upload (a `files[i]` entry is an `UploadFile`, which
is always truthy, and the earlier length check makes the index valid), set
the non-mapped `image_url` attribute on success, commit (which writes no
mapped-column change), refresh.  A raise from the Cloudinary SDK propagates:
the already committed rows stay, later items are not processed. -/
def create_loop (upl : String → Except String String) (files : Option (List String)) :
    List CarCreate → Nat → DB → List CarInstance → DB × Except HErr (List CarInstance)
  | [], _i, db, acc => (db, .ok acc.reverse)
  | car :: rest, i, db, acc =>
    let row := mkRow db.nextId car
    let db' : DB := ⟨db.rows ++ [row], db.nextId + 1⟩
    if pyTruthyFiles files then
      match upl ((files.getD []).getD i "") with
      | .error e => (db', .error (.pyExc e))
      | .ok secure_url =>
        create_loop upl files rest (i + 1) db' (⟨row, some secure_url⟩ :: acc)
    else
      create_loop upl files rest (i + 1) db' (⟨row, none⟩ :: acc)

/-- `POST /cars` handler `create_cars` (source lines 104-139).  `parsed` is
the outcome of `parse_obj_as(list[CarCreate], json.loads(cars))`; an
exception there becomes HTTP 400 "Invalid JSON format".  Then
`if files and len(files) != len(cars_data):` raises HTTP 400, and otherwise
the per-item loop runs. -/
def create_cars (upl : String → Except String String)
    (parsed : Except String (List CarCreate)) (files : Option (List String))
    (db : DB) : DB × Except HErr (List CarResponse) :=
  match parsed with
  | .error _ => (db, .error (.http 400 "Invalid JSON format"))
  | .ok cars_data =>
    if pyTruthyFiles files && ((files.getD []).length != cars_data.length) then
      (db, .error (.http 400 "Number of images must match number of cars"))
    else
      let res := create_loop upl files cars_data 0 db []
      (res.1, res.2.map (fun insts => insts.map serializeCar))

/-- `GET /cars` handler `get_cars` (source lines 143-146): a fresh session
loads every row; the `image_url` attribute does not exist on the loaded
objects, so `CarResponse` falls back to its `None` default. -/
def get_cars (db : DB) : List CarResponse :=
  db.rows.map (fun r => serializeCar ⟨r, none⟩)

/-- `DELETE /cars/{car_id}` handler `delete_car` (source lines 158-172):
404 when the id is absent; otherwise `if db_car.image_url:` reads the
non-mapped attribute on the freshly loaded instance (an `AttributeError` in
Python when it was never assigned), conditionally calls
`cloudinary.uploader.destroy(public_id)`, then deletes the row and commits.
The success payload records the destroy key that was sent (if any) together
with the response message. -/
def delete_car (db : DB) (car_id : Nat) : DB × Except HErr (Option String × String) :=
  match loadCar db car_id with
  | none => (db, .error (.http 404 "Car not found"))
  | some db_car =>
    match db_car.image_url with
    | none => (db, .error (.pyAttrError "image_url"))
    | some url =>
      (⟨db.rows.filter (fun r => !(r.id == db_car.row.id)), db.nextId⟩,
        .ok (destroyKeyFor url, "Car deleted successfully"))

/-- Multipart form of `PUT /cars/{car_id}`: `make`, `model`, `year` are
`Optional[str] = Form(None)`, `file` is `Optional[UploadFile] = File(None)`. -/
structure UpdateForm where
  make : Option String
  model : Option String
  year : Option String
  file : Option String
deriving DecidableEq, Repr

/-- `if make: db_car.make = make` (source line 188). -/
def applyMake (form : UpdateForm) (inst : CarInstance) : CarInstance :=
  if pyTruthyOptStr form.make then { inst with row.make := form.make.getD "" } else inst

/-- `if model: db_car.model = model` (source line 190). -/
def applyModel (form : UpdateForm) (inst : CarInstance) : CarInstance :=
  if pyTruthyOptStr form.model then { inst with row.model := form.model.getD "" } else inst

/-- `if year: try: db_car.year = int(year) except ValueError: raise 400`
(source lines 192-196). -/
def applyYear (form : UpdateForm) (inst : CarInstance) : Except HErr CarInstance :=
  if pyTruthyOptStr form.year then
    match pyInt? (form.year.getD "") with
    | none => .error (.http 400 "Invalid year format")
    | some y => .ok { inst with row.year := y }
  else .ok inst

/-- `if file:` block (source lines 199-207): read the non-mapped `image_url`
attribute (an `AttributeError` on a freshly loaded instance), destroy the old
Cloudinary image when that attribute is truthy (`destroyKeyFor url` is the
key the destroy call sends), upload the new file, and assign the returned
`secure_url` to the attribute. -/
def applyFile (upl : String → Except String String) (form : UpdateForm)
    (inst : CarInstance) : Except HErr CarInstance :=
  if form.file.isSome then
    match inst.image_url with
    | none => .error (.pyAttrError "image_url")
    | some _url =>
      match upl (form.file.getD "") with
      | .error e => .error (.pyExc e)
      | .ok secure_url => .ok { inst with image_url := some secure_url }
  else .ok inst

/-- `PUT /cars/{car_id}` handler `update_car` (source lines 174-212):
404 when the id is absent; otherwise the field updates run in source order
(`make`, `model`, `year`, then the file block); a raise leaves the session
uncommitted, so the durable table is unchanged; on success `db.commit()`
writes the mapped columns back and the instance is returned. -/
def update_car (upl : String → Except String String) (db : DB) (car_id : Nat)
    (form : UpdateForm) : DB × Except HErr CarResponse :=
  match loadCar db car_id with
  | none => (db, .error (.http 404 "Car not found"))
  | some db_car =>
    match applyYear form (applyModel form (applyMake form db_car)) with
    | .error e => (db, .error e)
    | .ok db_car =>
      match applyFile upl form db_car with
      | .error e => (db, .error e)
      | .ok db_car => (commitRow db db_car.row, .ok (serializeCar db_car))

/-- HTTP methods used by the app. -/
inductive Method where
  | GET | POST | PUT | DELETE
deriving DecidableEq, Repr

/-- A segment of a route pattern: a literal or a path parameter. -/
inductive Seg where
  | lit (s : String)
  | param (name : String)
deriving DecidableEq, Repr

/-- The routes registered on the FastAPI app by the (uncommented) decorators
of `src/app.py`.  `@app.get("/cars/{car_id}")` (source lines 150-156) is
commented out and therefore absent; the delete decorator is duplicated in the
source (lines 158-159). -/
def registeredRoutes : List (Method × List Seg) :=
  [ (.GET, [.lit "favicon.ico"]),
    (.POST, [.lit "cars"]),
    (.GET, [.lit "cars"]),
    (.DELETE, [.lit "cars", .param "car_id"]),
    (.DELETE, [.lit "cars", .param "car_id"]),
    (.PUT, [.lit "cars", .param "car_id"]),
    (.GET, []) ]

/-- Does a route-pattern segment match a concrete path segment? -/
def matchSeg : Seg → String → Bool
  | .lit s, t => s == t
  | .param _, _ => true

/-- Does a route pattern match a concrete path (as a segment list)? -/
def matchPath : List Seg → List String → Bool
  | [], [] => true
  | p :: ps, t :: ts => matchSeg p t && matchPath ps ts
  | _, _ => false

/-- Is some registered route a full match (path and method) for the request?
Only a full match dispatches to a handler. -/
def hasRoute (m : Method) (path : List String) : Bool :=
  registeredRoutes.any (fun r => decide (r.1 = m) && matchPath r.2 path)

/-- Starlette's routing outcome when no full match exists: a route whose
path pattern matches but whose method differs is a partial match, answered
with 405 Method Not Allowed; when no route matches the path at all the
router falls through to its default 404 response. -/
inductive RouteMatch where
  | full
  | pathOnly
  | noRoute
deriving DecidableEq, Repr

/-- The routing outcome for a request against `registeredRoutes`. -/
def matchOutcome (m : Method) (path : List String) : RouteMatch :=
  if hasRoute m path then .full
  else if registeredRoutes.any (fun r => matchPath r.2 path) then .pathOnly
  else .noRoute

/-- The status Starlette answers with when no handler runs: 405 for a
path-only (method-mismatch) match, 404 when nothing matches the path,
`none` when a handler runs. -/
def unmatchedStatus : RouteMatch → Option Nat
  | .full => none
  | .pathOnly => some 405
  | .noRoute => some 404

/-! Concrete fixtures used by closed evaluations and witnesses. -/

/-- A Cloudinary secure URL whose final segment has a single dot. -/
def exUrl : String := "https://res.cloudinary.com/demo/image/upload/v1/car_images/abc123.jpg"

/-- A Cloudinary-style URL whose final path segment contains two dots. -/
def exUrl2 : String := "https://res.cloudinary.com/demo/image/upload/v1/car_images/my.photo.jpg"

/-- An image service that always succeeds and returns `exUrl`. -/
def exUploaderOk : String → Except String String := fun _ => .ok exUrl

/-- An image service that raises on file "f2" and succeeds otherwise. -/
def exUploaderBoom : String → Except String String :=
  fun f => if f == "f2" then .error "boom" else .ok exUrl

/-- The empty table. -/
def exDb0 : DB := ⟨[], 1⟩

/-- A create item. -/
def exCarToyota : CarCreate := ⟨"Toyota", "Corolla", 2020⟩

/-- A second create item. -/
def exCarHonda : CarCreate := ⟨"Honda", "Civic", 2021⟩

/-- The row produced by inserting `exCarToyota` into `exDb0`. -/
def exRow1 : Car := ⟨1, "Toyota", "Corolla", 2020, none⟩

/-- A table holding exactly `exRow1`. -/
def exDb1 : DB := ⟨[exRow1], 2⟩

/-- Modelled from the spec words of claim C4 as stated: the URL's final path
segment with its extension stripped, i.e. truncated at its *last* dot (the
whole segment when it has no dot). -/
def public_id_lastDot (url : String) : String :=
  let seg := lastSegC url.data
  let parts := pySplitC '.' seg
  if parts.length ≤ 1 then ⟨seg⟩ else ⟨joinSep '.' parts.dropLast⟩

/-- Modelled from the amended wording of claim C4: the URL's final path
segment truncated at its *first* dot. -/
def public_id_firstDot (url : String) : String :=
  ⟨(lastSegC url.data).takeWhile (fun c => c != '.')⟩

/-! Helper lemmas. -/

theorem pySplitC_ne_nil (sep : Char) : ∀ l : List Char, pySplitC sep l ≠ []
  | [] => by simp [pySplitC]
  | c :: rest => by
    simp only [pySplitC]
    cases h : pySplitC sep rest with
    | nil => simp
    | cons g gs => by_cases hc : c = sep <;> simp [hc]

theorem pySplitC_headD_takeWhile (sep : Char) :
    ∀ l : List Char, (pySplitC sep l).headD [] = l.takeWhile (fun c => c != sep)
  | [] => by simp [pySplitC]
  | c :: rest => by
    have ih := pySplitC_headD_takeWhile sep rest
    simp only [pySplitC]
    cases h : pySplitC sep rest with
    | nil => exact absurd h (pySplitC_ne_nil sep rest)
    | cons g gs =>
      rw [h] at ih
      by_cases hc : c = sep
      · subst hc
        simp [List.takeWhile_cons]
      · have hb : (c != sep) = true := by simp [hc]
        dsimp only
        rw [if_neg hc]
        simp only [List.takeWhile_cons, hb, if_true, List.headD_cons]
        exact congrArg (c :: ·) ih

theorem pyTruthyFiles_some_of_ne_nil {fs : List String} (h : fs ≠ []) :
    pyTruthyFiles (some fs) = true := by
  cases fs with
  | nil => exact absurd rfl h
  | cons a l => rfl

theorem loadCar_row_mem {db : DB} {car_id : Nat} {inst : CarInstance}
    (h : loadCar db car_id = some inst) : inst.row ∈ db.rows := by
  unfold loadCar at h
  cases hf : db.rows.find? (fun r => r.id == car_id) with
  | none => rw [hf] at h; exact absurd h (by simp)
  | some r =>
    rw [hf] at h
    injection h with h
    subst h
    exact List.mem_of_find?_eq_some hf

theorem loadCar_image_url {db : DB} {car_id : Nat} {inst : CarInstance}
    (h : loadCar db car_id = some inst) : inst.image_url = none := by
  unfold loadCar at h
  cases hf : db.rows.find? (fun r => r.id == car_id) with
  | none => rw [hf] at h; exact absurd h (by simp)
  | some r =>
    rw [hf] at h
    injection h with h
    subst h
    rfl

theorem applyMake_image_filename (form : UpdateForm) (inst : CarInstance) :
    (applyMake form inst).row.image_filename = inst.row.image_filename := by
  unfold applyMake; split <;> rfl

theorem applyModel_image_filename (form : UpdateForm) (inst : CarInstance) :
    (applyModel form inst).row.image_filename = inst.row.image_filename := by
  unfold applyModel; split <;> rfl

theorem applyYear_ok_image_filename {form : UpdateForm} {inst inst' : CarInstance}
    (h : applyYear form inst = .ok inst') :
    inst'.row.image_filename = inst.row.image_filename := by
  unfold applyYear at h
  split at h
  · split at h
    · exact absurd h (by simp)
    · cases h; rfl
  · cases h; rfl

theorem applyFile_ok_row {upl : String → Except String String} {form : UpdateForm}
    {inst inst' : CarInstance} (h : applyFile upl form inst = .ok inst') :
    inst'.row = inst.row := by
  unfold applyFile at h
  split at h
  · split at h
    · exact absurd h (by simp)
    · split at h
      · exact absurd h (by simp)
      · cases h; rfl
  · cases h; rfl

theorem create_loop_rows_superset (upl : String → Except String String)
    (files : Option (List String)) :
    ∀ (cs : List CarCreate) (i : Nat) (db : DB) (acc : List CarInstance) (r : Car),
      r ∈ (create_loop upl files cs i db acc).1.rows →
      r ∈ db.rows ∨ r.image_filename = none := by
  intro cs
  induction cs with
  | nil =>
    intro i db acc r hr
    exact Or.inl (by simpa [create_loop] using hr)
  | cons c rest ih =>
    intro i db acc r hr
    simp only [create_loop] at hr
    cases htr : pyTruthyFiles files with
    | false =>
      rw [htr] at hr
      simp only [Bool.false_eq_true, if_false] at hr
      rcases ih (i + 1) ⟨db.rows ++ [mkRow db.nextId c], db.nextId + 1⟩
          (⟨mkRow db.nextId c, none⟩ :: acc) r hr with h | h
      · rcases List.mem_append.mp h with h' | h'
        · exact Or.inl h'
        · right
          have : r = mkRow db.nextId c := by simpa using h'
          rw [this]; rfl
      · exact Or.inr h
    | true =>
      rw [htr] at hr
      simp only [if_true] at hr
      cases hu : upl ((files.getD []).getD i "") with
      | error e =>
        rw [hu] at hr
        have hr' : r ∈ db.rows ++ [mkRow db.nextId c] := by simpa using hr
        rcases List.mem_append.mp hr' with h' | h'
        · exact Or.inl h'
        · right
          have : r = mkRow db.nextId c := by simpa using h'
          rw [this]; rfl
      | ok u =>
        rw [hu] at hr
        rcases ih (i + 1) ⟨db.rows ++ [mkRow db.nextId c], db.nextId + 1⟩
            (⟨mkRow db.nextId c, some u⟩ :: acc) r hr with h | h
        · rcases List.mem_append.mp h with h' | h'
          · exact Or.inl h'
          · right
            have : r = mkRow db.nextId c := by simpa using h'
            rw [this]; rfl
        · exact Or.inr h

theorem create_loop_stops_at_failure (upl : String → Except String String)
    (fs : List String) (e : String) :
    ∀ (cs : List CarCreate) (k i : Nat) (db : DB) (acc : List CarInstance),
      fs ≠ [] → k < cs.length →
      (∀ j, j < k → ∃ u, upl (fs.getD (i + j) "") = Except.ok u) →
      upl (fs.getD (i + k) "") = Except.error e →
      create_loop upl (some fs) cs i db acc
        = (⟨db.rows ++ mkRows db.nextId (cs.take (k + 1)), db.nextId + (k + 1)⟩,
            Except.error (HErr.pyExc e)) := by
  intro cs
  induction cs with
  | nil =>
    intro k i db acc _ hk _ _
    exact absurd hk (Nat.not_lt_zero k)
  | cons c rest ih =>
    intro k i db acc hne hk hok herr
    have htr : pyTruthyFiles (some fs) = true := pyTruthyFiles_some_of_ne_nil hne
    simp only [create_loop, htr, if_true]
    cases k with
    | zero =>
      have herr0 : upl (fs.getD i "") = Except.error e := by simpa using herr
      rw [show ((some fs : Option (List String)).getD []).getD i "" = fs.getD i "" from rfl,
        herr0]
      simp [mkRows, mkRow]
    | succ k' =>
      obtain ⟨u, hu⟩ := hok 0 (Nat.succ_pos k')
      have hu' : upl (fs.getD i "") = Except.ok u := by simpa using hu
      rw [show ((some fs : Option (List String)).getD []).getD i "" = fs.getD i "" from rfl,
        hu']
      dsimp only
      have hok' : ∀ j, j < k' → ∃ v, upl (fs.getD (i + 1 + j) "") = Except.ok v := by
        intro j hj
        have := hok (j + 1) (by omega)
        rwa [show i + (j + 1) = i + 1 + j by omega] at this
      have herr' : upl (fs.getD (i + 1 + k') "") = Except.error e := by
        rwa [show i + (k' + 1) = i + 1 + k' by omega] at herr
      rw [ih k' (i + 1) ⟨db.rows ++ [mkRow db.nextId c], db.nextId + 1⟩
        (⟨mkRow db.nextId c, some u⟩ :: acc) hne (by simpa using Nat.lt_of_succ_lt_succ hk)
        hok' herr']
      simp only [List.take, mkRows]
      rw [List.append_assoc]
      simp only [List.singleton_append]
      rw [show db.nextId + 1 + (k' + 1) = db.nextId + (k' + 1 + 1) by omega]

/-! Claim theorems. -/

/-- Claim C1 (code bug, evaluated at the failing input): `create_cars`
stores an image for the single created record and its own response carries
the secure URL, yet `GET /cars` in the next request returns that record with
a null image reference, because `image_url` is not a mapped column and the
comment on source line 146 ("it's already stored in DB") is false. -/
theorem create_then_list_drops_image :
    (create_cars exUploaderOk (.ok [exCarToyota]) (some ["f1"]) exDb0).2
        = .ok [⟨1, "Toyota", "Corolla", 2020, some exUrl⟩]
    ∧ get_cars (create_cars exUploaderOk (.ok [exCarToyota]) (some ["f1"]) exDb0).1
        = [⟨1, "Toyota", "Corolla", 2020, none⟩] :=
  ⟨rfl, rfl⟩

/-- Claim C2 counterexample: the claim says `GetById` is available at
`GET /cars/{id}` and fails with 404 when the id is absent, but no registered
route of the app serves `GET /cars/1` — the `get_car` handler (source lines
150-156) is commented out — and the request is answered with 405 Method Not
Allowed (the path matches only the PUT/DELETE routes), not with the record
and not with a 404. -/
theorem get_car_route_not_registered :
    hasRoute .GET ["cars", "1"] = false
    ∧ unmatchedStatus (matchOutcome .GET ["cars", "1"]) = some 405 :=
  ⟨rfl, rfl⟩

/-- Claim C2 (amended): `GetById` is not available — the `get_car` handler
is commented out, so no registered route serves `GET /cars/{id}` for any id;
the path `/cars/{car_id}` is registered only for PUT and DELETE, so every
`GET /cars/{id}` request is a partial (path-only) match answered with
405 Method Not Allowed, and no record is ever returned. -/
theorem no_get_route_for_car_id (id : Nat) :
    hasRoute .GET ["cars", toString id] = false
    ∧ matchOutcome .GET ["cars", toString id] = .pathOnly
    ∧ unmatchedStatus (matchOutcome .GET ["cars", toString id]) = some 405 :=
  ⟨rfl, rfl, rfl⟩

/-- Claim C3 counterexample: with two items and an image service that raises
on the second file, `create_cars` returns the exception to the client
(HTTP 500) rather than silently absorbing it; the first row and the
already-committed second row remain, but processing stops at the failure. -/
theorem upload_failure_propagates_cx :
    create_cars exUploaderBoom (.ok [exCarToyota, exCarHonda]) (some ["f1", "f2"]) exDb0
      = (⟨[exRow1, ⟨2, "Honda", "Civic", 2021, none⟩], 3⟩,
          .error (.pyExc "boom")) := rfl

/-- Claim C3 (amended): if the image upload raises at item `k` of a
bulk create (all earlier uploads succeeding), the exception propagates out
of the handler (no 200 response); the rows of items `0..k` are already
committed and remain, each without an image reference, and the items after
`k` are not processed. -/
theorem upload_failure_aborts_batch (upl : String → Except String String)
    (cs : List CarCreate) (fs : List String) (db : DB) (k : Nat) (e : String)
    (hlen : fs.length = cs.length) (hk : k < cs.length)
    (hok : ∀ j, j < k → ∃ u, upl (fs.getD j "") = Except.ok u)
    (herr : upl (fs.getD k "") = Except.error e) :
    create_cars upl (.ok cs) (some fs) db
      = (⟨db.rows ++ mkRows db.nextId (cs.take (k + 1)), db.nextId + (k + 1)⟩,
          Except.error (HErr.pyExc e)) := by
  have hne : fs ≠ [] := by
    intro h
    rw [h] at hlen
    simp only [List.length_nil] at hlen
    omega
  unfold create_cars
  have hbne : (fs.length != cs.length) = false := by simp [hlen]
  dsimp only
  rw [show ((some fs : Option (List String)).getD []).length = fs.length from rfl, hbne,
    Bool.and_false, if_neg (by simp)]
  rw [create_loop_stops_at_failure upl fs e cs k 0 db [] hne hk
    (fun j hj => by simpa using hok j hj) (by simpa using herr)]
  rfl

/-- Claim C3 witness: the amended statement applied to the concrete
counterexample run. -/
theorem upload_failure_aborts_batch_witness :
    create_cars exUploaderBoom (.ok [exCarToyota, exCarHonda]) (some ["f1", "f2"]) exDb0
      = (⟨exDb0.rows ++ mkRows exDb0.nextId ([exCarToyota, exCarHonda].take 2),
          exDb0.nextId + 2⟩, .error (.pyExc "boom")) :=
  upload_failure_aborts_batch exUploaderBoom [exCarToyota, exCarHonda] ["f1", "f2"]
    exDb0 1 "boom" rfl (by decide)
    (fun j hj => by
      have hj0 : j = 0 := Nat.lt_one_iff.mp hj
      subst hj0
      exact ⟨exUrl, rfl⟩)
    rfl

/-- Claim C4 counterexample: for a stored URL whose final path segment is
`my.photo.jpg`, the code's delete key is `my` (truncation at the *first*
dot), not `my.photo` (the final segment with its extension stripped at the
last dot), so the claim's description of the key is false. -/
theorem public_id_first_dot_cx :
    public_id exUrl2 = "my" ∧ public_id_lastDot exUrl2 = "my.photo"
      ∧ public_id exUrl2 ≠ public_id_lastDot exUrl2 :=
  ⟨rfl, rfl, by decide⟩

/-- Claim C4 (amended): the delete key sent to the remote image service
equals the URL's final path segment truncated at its *first* dot (the
longest dot-free leading part of the segment). -/
theorem public_id_takes_before_first_dot (url : String) :
    public_id url = public_id_firstDot url := by
  unfold public_id public_id_firstDot
  rw [pySplitC_headD_takeWhile]

/-- Claim C5 counterexample: a provided-but-empty `files` list is falsy in
Python, so `create_cars` skips the length validation even though
`len(files) = 0` differs from `len(items) = 1`: the request succeeds and a
record is created instead of failing with HTTP 400. -/
theorem empty_files_list_skips_validation_cx :
    create_cars exUploaderOk (.ok [exCarToyota]) (some []) exDb0
      = (exDb1, .ok [⟨1, "Toyota", "Corolla", 2020, none⟩]) := rfl

/-- Claim C5 (amended): when `files` is provided as a *non-empty* list whose
length differs from the items list, `create_cars` fails with HTTP 400 and
the record store is unchanged. -/
theorem files_length_mismatch_rejected (upl : String → Except String String)
    (cs : List CarCreate) (fs : List String) (db : DB)
    (hne : fs ≠ []) (hlen : fs.length ≠ cs.length) :
    create_cars upl (.ok cs) (some fs) db
      = (db, .error (.http 400 "Number of images must match number of cars")) := by
  unfold create_cars
  have h1 : pyTruthyFiles (some fs) = true := pyTruthyFiles_some_of_ne_nil hne
  have h2 : (fs.length != cs.length) = true := by simpa using hlen
  dsimp only
  rw [show ((some fs : Option (List String)).getD []).length = fs.length from rfl, h1, h2]
  rfl

/-- Claim C5 witness: two items with one file are rejected with HTTP 400 and
no row is inserted. -/
theorem files_length_mismatch_rejected_witness :
    create_cars exUploaderOk (.ok [exCarToyota, exCarHonda]) (some ["f1"]) exDb0
      = (exDb0, .error (.http 400 "Number of images must match number of cars")) :=
  files_length_mismatch_rejected exUploaderOk [exCarToyota, exCarHonda] ["f1"] exDb0
    (by decide) (by decide)

/-- Claim C6 counterexample: the empty string does not parse as a Python
integer, yet `update_car` with `year=""` succeeds (HTTP 200) instead of
failing with HTTP 400, because `if year:` treats the empty string as
falsy and skips the parse. -/
theorem empty_year_not_rejected_cx :
    pyInt? "" = none
    ∧ update_car exUploaderOk exDb1 1 ⟨none, none, some "", none⟩
        = (exDb1, .ok ⟨1, "Toyota", "Corolla", 2020, none⟩) :=
  ⟨rfl, rfl⟩

/-- Claim C6 (amended): for an existing record, an update whose `year` field
is a *non-empty* string that does not parse as an integer fails with
HTTP 400 "Invalid year format" and leaves the stored table entirely
unchanged, whatever `make`, `model` or `file` the same request carries. -/
theorem unparsable_year_rejected (upl : String → Except String String)
    (db : DB) (car_id : Nat) (inst : CarInstance) (mk md f : Option String)
    (ys : String) (hload : loadCar db car_id = some inst)
    (hne : ys ≠ "") (hparse : pyInt? ys = none) :
    update_car upl db car_id ⟨mk, md, some ys, f⟩
      = (db, .error (.http 400 "Invalid year format")) := by
  have ht : pyTruthyOptStr (some ys) = true := by
    simp [pyTruthyOptStr, pyTruthyStr, hne]
  unfold update_car
  rw [hload]
  dsimp only
  have hy : applyYear ⟨mk, md, some ys, f⟩
        (applyModel ⟨mk, md, some ys, f⟩ (applyMake ⟨mk, md, some ys, f⟩ inst))
      = .error (.http 400 "Invalid year format") := by
    unfold applyYear
    simp only [ht, if_true]
    rw [show (⟨mk, md, some ys, f⟩ : UpdateForm).year.getD "" = ys from rfl, hparse]
  rw [hy]

/-- Claim C6 witness: updating the stored record with `make="Mazda"`,
`model="3"`, `year="abc"` is rejected with HTTP 400 and the table keeps the
original row. -/
theorem unparsable_year_rejected_witness :
    update_car exUploaderOk exDb1 1 ⟨some "Mazda", some "3", some "abc", none⟩
      = (exDb1, .error (.http 400 "Invalid year format")) :=
  unparsable_year_rejected exUploaderOk exDb1 1 ⟨exRow1, none⟩
    (some "Mazda") (some "3") none "abc" rfl (by decide) rfl

/-- Claim C7 (code bug, evaluated at the failing input): deleting an unknown
id correctly fails with HTTP 404 and leaves the table unchanged, but
deleting the *existing* record raises `AttributeError` on the unmapped
`image_url` attribute of the freshly loaded instance (HTTP 500) and the row
is NOT removed, contradicting the claim that delete succeeds. -/
theorem delete_car_eval :
    delete_car exDb1 2 = (exDb1, .error (.http 404 "Car not found"))
    ∧ delete_car exDb1 1 = (exDb1, .error (.pyAttrError "image_url")) :=
  ⟨rfl, rfl⟩

/-- Claim C8 counterexample: an update that supplies only `make` as the
empty string leaves `make` unchanged ("Toyota", not the supplied ""),
because `if make:` treats the empty string as falsy. -/
theorem empty_make_not_applied_cx :
    (update_car exUploaderOk exDb1 1 ⟨some "", none, none, none⟩).2
        = .ok ⟨1, "Toyota", "Corolla", 2020, none⟩
    ∧ "Toyota" ≠ "" :=
  ⟨rfl, by decide⟩

/-- Claim C8 (amended): for an existing record, an update that supplies only
a *non-empty* `make` (no model, year or file) rewrites exactly that record's
row with only `make` replaced — `model`, `year` and the `image_filename`
column are untouched, as is every other row — and returns the updated
record. -/
theorem update_only_make_frame (upl : String → Except String String)
    (db : DB) (car_id : Nat) (inst : CarInstance) (m : String)
    (hload : loadCar db car_id = some inst) (hm : m ≠ "") :
    update_car upl db car_id ⟨some m, none, none, none⟩
      = (commitRow db { inst.row with make := m },
          .ok ⟨inst.row.id, m, inst.row.model, inst.row.year, inst.image_url⟩) := by
  have hm' : pyTruthyOptStr (some m) = true := by
    simp [pyTruthyOptStr, pyTruthyStr, hm]
  unfold update_car
  rw [hload]
  dsimp only
  have hmk : applyMake ⟨some m, none, none, none⟩ inst = { inst with row.make := m } := by
    simp [applyMake, hm']
  have hmd : applyModel ⟨some m, none, none, none⟩ { inst with row.make := m }
      = { inst with row.make := m } := by
    unfold applyModel
    rfl
  have hyr : applyYear ⟨some m, none, none, none⟩ { inst with row.make := m }
      = .ok { inst with row.make := m } := by
    unfold applyYear
    rfl
  have hfl : applyFile upl ⟨some m, none, none, none⟩ { inst with row.make := m }
      = .ok { inst with row.make := m } := by
    unfold applyFile
    rfl
  rw [hmk, hmd, hyr]
  dsimp only
  rw [hfl]
  rfl

/-- Claim C8 witness: updating only `make` to "Mazda" rewrites the row with
the new make and returns the record with model, year and image unchanged. -/
theorem update_only_make_frame_witness :
    update_car exUploaderOk exDb1 1 ⟨some "Mazda", none, none, none⟩
      = (commitRow exDb1 { exRow1 with make := "Mazda" },
          .ok ⟨1, "Mazda", "Corolla", 2020, none⟩) :=
  update_only_make_frame exUploaderOk exDb1 1 ⟨exRow1, none⟩ "Mazda" rfl (by decide)

/-- Claim C9: the persisted `cars` table's only image-related column is
`image_filename` and no operation ever writes it (`image_url` is not among
the mapped columns; every row a handler leaves behind carries the
`image_filename` it was created with — `none` from bulk create); therefore
the assigned image reference is not durable: every freshly loaded instance
has the `image_url` attribute unset, and `GET /cars` serializes every
record with a null image reference in any request after the one that set it. -/
theorem image_url_not_persisted :
    ("image_url" ∉ carColumns)
    ∧ (∀ upl parsed files db r, r ∈ (create_cars upl parsed files db).1.rows →
        r ∈ db.rows ∨ r.image_filename = none)
    ∧ (∀ upl db car_id form r, r ∈ (update_car upl db car_id form).1.rows →
        r.image_filename ∈ db.rows.map (fun r₀ => r₀.image_filename))
    ∧ (∀ db car_id r, r ∈ (delete_car db car_id).1.rows → r ∈ db.rows)
    ∧ (∀ db c, c ∈ get_cars db → c.image_url = none)
    ∧ (∀ db car_id inst, loadCar db car_id = some inst → inst.image_url = none) := by
  refine ⟨by decide, ?_, ?_, ?_, ?_, fun db car_id inst h => loadCar_image_url h⟩
  · intro upl parsed files db r hr
    cases parsed with
    | error msg => exact Or.inl (by simpa [create_cars] using hr)
    | ok cs =>
      unfold create_cars at hr
      dsimp only at hr
      split at hr
      · exact Or.inl hr
      · exact create_loop_rows_superset upl files cs 0 db [] r hr
  · intro upl db car_id form r hr
    unfold update_car at hr
    cases hload : loadCar db car_id with
    | none =>
      rw [hload] at hr
      exact List.mem_map_of_mem _ hr
    | some inst =>
      rw [hload] at hr
      dsimp only at hr
      cases hy : applyYear form (applyModel form (applyMake form inst)) with
      | error e =>
        rw [hy] at hr
        exact List.mem_map_of_mem _ hr
      | ok inst2 =>
        rw [hy] at hr
        dsimp only at hr
        cases hf : applyFile upl form inst2 with
        | error e =>
          rw [hf] at hr
          exact List.mem_map_of_mem _ hr
        | ok inst3 =>
          rw [hf] at hr
          unfold commitRow at hr
          rcases List.mem_map.mp hr with ⟨x, hx, hxe⟩
          by_cases hid : (x.id == inst3.row.id) = true
          · rw [if_pos hid] at hxe
            have h3 : inst3.row = inst2.row := applyFile_ok_row hf
            have h2 : inst2.row.image_filename
                = (applyModel form (applyMake form inst)).row.image_filename :=
              applyYear_ok_image_filename hy
            have h1 : r.image_filename = inst.row.image_filename := by
              rw [← hxe, h3, h2, applyModel_image_filename, applyMake_image_filename]
            rw [h1]
            exact List.mem_map_of_mem _ (loadCar_row_mem hload)
          · rw [if_neg hid] at hxe
            rw [← hxe]
            exact List.mem_map_of_mem _ hx
  · intro db car_id r hr
    unfold delete_car at hr
    cases hload : loadCar db car_id with
    | none => rw [hload] at hr; exact hr
    | some inst =>
      rw [hload] at hr
      dsimp only at hr
      cases hiu : inst.image_url with
      | none => rw [hiu] at hr; exact hr
      | some url =>
        rw [hiu] at hr
        exact List.mem_of_mem_filter hr
  · intro db c hc
    unfold get_cars at hc
    rcases List.mem_map.mp hc with ⟨r, _, rfl⟩
    rfl

/-- Claim C9 witness: the general statement instantiated at concrete
requests — the column check, a created row, an updated row's
`image_filename`, a row surviving a failed delete, a listed record, and a
freshly loaded instance. -/
theorem image_url_not_persisted_witness :
    ("image_url" ∉ carColumns)
    ∧ (exRow1 ∈ exDb0.rows ∨ exRow1.image_filename = none)
    ∧ ((⟨1, "Mazda", "Corolla", 2020, none⟩ : Car).image_filename
        ∈ exDb1.rows.map (fun r₀ => r₀.image_filename))
    ∧ (exRow1 ∈ exDb1.rows)
    ∧ ((⟨1, "Toyota", "Corolla", 2020, none⟩ : CarResponse).image_url = none)
    ∧ ((⟨exRow1, none⟩ : CarInstance).image_url = none) := by
  refine ⟨image_url_not_persisted.1, ?_, ?_, ?_, ?_, ?_⟩
  · exact image_url_not_persisted.2.1 exUploaderOk (.ok [exCarToyota]) (some ["f1"])
      exDb0 exRow1 (by decide)
  · exact image_url_not_persisted.2.2.1 exUploaderOk exDb1 1
      ⟨some "Mazda", none, none, none⟩ ⟨1, "Mazda", "Corolla", 2020, none⟩ (by decide)
  · exact image_url_not_persisted.2.2.2.1 exDb1 1 exRow1 (by decide)
  · exact image_url_not_persisted.2.2.2.2.1 exDb1 ⟨1, "Toyota", "Corolla", 2020, none⟩
      (by decide)
  · exact image_url_not_persisted.2.2.2.2.2 exDb1 1 ⟨exRow1, none⟩ rfl

/-- Claim C10: `update_car` treats falsy form values as omitted — supplying
`make`, `model` and `year` all as the empty string succeeds and writes the
loaded row back entirely unchanged (no 400 from the unparsable empty year),
returning the record as it was. -/
theorem falsy_fields_omitted (upl : String → Except String String)
    (db : DB) (car_id : Nat) (inst : CarInstance)
    (hload : loadCar db car_id = some inst) :
    update_car upl db car_id ⟨some "", some "", some "", none⟩
      = (commitRow db inst.row, .ok (serializeCar inst)) := by
  unfold update_car
  rw [hload]
  dsimp only
  have hmk : applyMake ⟨some "", some "", some "", none⟩ inst = inst := by
    unfold applyMake
    rfl
  have hmd : applyModel ⟨some "", some "", some "", none⟩ inst = inst := by
    unfold applyModel
    rfl
  have hyr : applyYear ⟨some "", some "", some "", none⟩ inst = .ok inst := by
    unfold applyYear
    rfl
  have hfl : applyFile upl ⟨some "", some "", some "", none⟩ inst = .ok inst := by
    unfold applyFile
    rfl
  rw [hmk, hmd, hyr]
  dsimp only
  rw [hfl]

/-- Claim C10 witness: the statement applied to the concrete stored record —
the row is written back unchanged and the response shows the old values. -/
theorem falsy_fields_omitted_witness :
    update_car exUploaderOk exDb1 1 ⟨some "", some "", some "", none⟩
      = (commitRow exDb1 exRow1, .ok (serializeCar ⟨exRow1, none⟩)) :=
  falsy_fields_omitted exUploaderOk exDb1 1 ⟨exRow1, none⟩ rfl

end CrudCloud
